import Mathlib

/-!
# NewsHub backend core: shallow embedding and verification

This file models the Redis-backed core of the NewsHub news-aggregation
platform (the `RedisService`, `CacheClearService` and `NewsProcessor`
classes from the backend, plus the frontend preference selector) and
proves or refutes the specified properties about it.

Modelling conventions:
* Redis keys are modelled by association lists `List (String × β)` keyed
  by the logical id (the fixed key prefixes such as `news:articles:` are
  dropped since they are injective renamings).
* Timestamps (`Date.now()`) are integers in milliseconds.
* Embedding vectors are `List ℚ`; trending scores (which involve
  `Math.exp`) are real numbers.
* Fallible operations return `Except String` mirroring `throw new Error`.
-/

/-- Association-list lookup, modelling a Redis point read (`JSON.GET`,
`HGETALL`) of a key: the value stored under `k`, if any. -/
def alookup {β : Type} (l : List (String × β)) (k : String) : Option β :=
  (l.find? (fun p => p.1 == k)).map (·.2)

/-- Association-list upsert, modelling a Redis write of a whole key:
replaces the binding under `k` or appends a fresh one. -/
def aset {β : Type} : List (String × β) → String → β → List (String × β)
  | [], k, v => [(k, v)]
  | p :: tl, k, v => if p.1 == k then (k, v) :: tl else p :: aset tl k v

/-- An engagement-metrics hash `metrics:engagement:<articleId>`: the
`view:count`, `like:count` and `share:count` fields (the `last_updated`
field does not influence any scored quantity and is omitted). -/
structure EngRecord where
  view : Nat
  like : Nat
  share : Nat
  deriving Repr, DecidableEq

/-- The engagement actions the service records and scores
(`trackEngagement` is only ever invoked with `view`; `like` and `share`
are the other two counters read by `getEngagementScore`). -/
inductive EngAction
  | view
  | like
  | share
  deriving Repr, DecidableEq

/-- `trackEngagement`'s effect on one engagement record: `HINCRBY` of the
counter named by the action, creating the hash when absent. -/
def bumpEngRecord (r : Option EngRecord) (a : EngAction) : EngRecord :=
  let r := r.getD ⟨0, 0, 0⟩
  match a with
  | .view => { r with view := r.view + 1 }
  | .like => { r with like := r.like + 1 }
  | .share => { r with share := r.share + 1 }

/-- The engagement hash produced by a sequence of `trackEngagement`
calls for one article, starting from an absent key. -/
def recordOfEvents (events : List EngAction) : EngRecord :=
  events.foldl (fun r a => bumpEngRecord (some r) a) ⟨0, 0, 0⟩

/-- `getEngagementScore`: `hgetall` of the engagement hash; when the hash
is absent the default score `1.0` is returned, otherwise
`viewCount + likeCount*2 + shareCount*3`, passed through
`Math.max(score, 1.0)`. -/
def getEngagementScore (r : Option EngRecord) : ℚ :=
  match r with
  | none => 1
  | some r => max ((r.view : ℚ) + (r.like : ℚ) * 2 + (r.share : ℚ) * 3) 1

/-- An article document stored at `news:articles:<id>` by `storeArticle`.
Fields not consulted by any modelled operation (`url`, `keywords`,
`metadata`) are omitted; `embedding` is optional because `json.get` may
find documents without one (`findSimilarArticles` checks for that). -/
structure Article where
  id : String
  title : String
  content : String
  summary : String
  sentiment : String
  topic : String
  source : String
  publishedAt : ℤ
  embedding : Option (List ℚ)
  deriving Repr, DecidableEq

/-- `storeArticle`: `json.set` at key `news:articles:<id>` — an upsert
keyed by the article id. -/
def storeArticle (a : Article) (store : List Article) : List Article :=
  if (store.find? (fun b => b.id == a.id)).isSome then
    store.map (fun b => if b.id == a.id then a else b)
  else
    store ++ [a]

/-- Documents visible to `news:search_index`: the index has
`FILTER: @publishedAt:[0 +inf]`, so only documents with a nonnegative
publish timestamp are indexed. -/
def indexedDocs (store : List Article) : List Article :=
  store.filter (fun a => decide (0 ≤ a.publishedAt))

/-- `SORTBY: @publishedAt` on a search: Redis sorts ascending by
default, so results come back in ascending publish-time order. -/
def sortByPublishedAt (l : List Article) : List Article :=
  List.insertionSort (fun a b => a.publishedAt ≤ b.publishedAt) l

/-- One `ft.search` call against `news:search_index` with a match
predicate and a `LIMIT {from, size}` window: sort the indexed documents
by publish time, keep the matches, and slice the window. -/
def ftSearch (store : List Article) (pred : Article → Bool)
    (off size : ℕ) : List Article :=
  (((sortByPublishedAt (indexedDocs store)).filter pred).drop off).take size

/-- The filters accepted by `searchArticles` (`sentiment`, `topic`,
`source` TAG filters and a numeric `publishedAt` date range). -/
structure SearchFilters where
  sentiment : Option String
  topic : Option String
  source : Option String
  dateRange : Option (ℤ × ℤ)
  deriving Repr, DecidableEq

/-- The full-text part `(@title:q | @content:q | @summary:q)` of
`searchArticles`' query, modelled as token membership in any of the
three TEXT fields. -/
def textMatch (q : String) (a : Article) : Bool :=
  (a.title.splitOn " ").contains q || (a.content.splitOn " ").contains q
    || (a.summary.splitOn " ").contains q

/-- The conjunction of the optional TAG/NUMERIC filters that
`searchArticles` appends to its query string. -/
def filterMatch (f : SearchFilters) (a : Article) : Bool :=
  (match f.sentiment with | none => true | some s => a.sentiment == s) &&
  (match f.topic with | none => true | some t => a.topic == t) &&
  (match f.source with | none => true | some src => a.source == src) &&
  (match f.dateRange with
   | none => true
   | some r => decide (r.1 ≤ a.publishedAt) && decide (a.publishedAt ≤ r.2))

/-- `searchArticles(query, filters)`: one `ft.search` with the combined
text-and-filters query, `SORTBY @publishedAt`, and a hardcoded
`LIMIT { from: 0, size: 50 }`. -/
def searchArticles (store : List Article) (q : String) (f : SearchFilters) :
    List Article :=
  ftSearch store (fun a => textMatch q a && filterMatch f a) 0 50

/-- The `user:preferences:<userId>` hash: topics, sources, an optional
sentiment and language. (The 30-day expiry set by
`storeUserPreferences` is folded into the preference map: an expired
hash reads back as absent.) -/
structure Prefs where
  topics : List String
  sources : List String
  sentiment : Option String
  language : Option String
  deriving Repr, DecidableEq

/-- The per-user match predicate `getPersonalizedNews` builds: a
`@topic:{..|..}` filter when the topic list is nonempty, likewise for
sources, and a `@sentiment:{s}` filter when a sentiment is set (an
empty-string sentiment is falsy in JS and adds no filter). When all
three are skipped the query is `*`, which matches everything. -/
def prefsMatch (p : Prefs) (a : Article) : Bool :=
  (p.topics.isEmpty || p.topics.contains a.topic) &&
  (p.sources.isEmpty || p.sources.contains a.source) &&
  (match p.sentiment with
   | none => true
   | some s => s == "" || a.sentiment == s)

/-- The Redis keyspace used by the modelled operations: the article
documents, the `user:preferences:*` hashes, the `user:viewed:*` and
`user:personalized:*` sets, the `metrics:engagement:*` hashes and the
`trending:articles` sorted set (kept in insertion order with its
scores). -/
structure SysState where
  store : List Article
  prefsMap : List (String × Prefs)
  viewed : List (String × List String)
  personalizedSet : List (String × List String)
  engagement : List (String × EngRecord)
  trending : List (String × ℝ)

/-- `SADD key member` on a modelled set-valued key. -/
def saddAt (m : List (String × List String)) (k v : String) :
    List (String × List String) :=
  let s := (alookup m k).getD []
  aset m k (if s.contains v then s else s ++ [v])

/-- `SREM key member` on a modelled set-valued key. -/
def sremAt (m : List (String × List String)) (k v : String) :
    List (String × List String) :=
  aset m k (((alookup m k).getD []).filter (fun x => x != v))

/-- `getUserPreferences(userId)`: `hgetall` of the preference hash,
`null` when the hash is absent (or expired). -/
def getUserPreferences (st : SysState) (userId : String) : Option Prefs :=
  alookup st.prefsMap userId

/-- `storeUserPreferences(userId, preferences)`: writes the hash fields
and the 30-day expiry, then returns `true`. No field of the input is
validated. -/
def storeUserPreferences (st : SysState) (userId : String) (p : Prefs) :
    Bool × SysState :=
  (true, { st with prefsMap := aset st.prefsMap userId p })

/-- `trackEngagement(articleId, action)`: `hincrby` of the action's
counter on the engagement hash (creating it when absent). -/
def trackEngagement (st : SysState) (articleId : String) (a : EngAction) :
    SysState :=
  { st with engagement :=
      (aset st.engagement articleId
        (bumpEngRecord (alookup st.engagement articleId) a)) }

/-- `trackArticleView(userId, articleId)`: `sadd` to the user's viewed
set, `srem` from the user's `user:personalized` set, then a `view`
engagement event. -/
def trackArticleView (st : SysState) (userId articleId : String) : SysState :=
  let st1 := { st with viewed := saddAt st.viewed userId articleId }
  let st2 := { st1 with personalizedSet := sremAt st1.personalizedSet userId articleId }
  trackEngagement st2 articleId .view

/-- `timeDecay` in `updateTrendingArticles`:
`Math.exp(-(now - publishedAt) / (24*60*60*1000))`. -/
noncomputable def timeDecay (now publishedAt : ℤ) : ℝ :=
  Real.exp (-((now : ℝ) - (publishedAt : ℝ)) / (24 * 60 * 60 * 1000))

/-- The scan `updateTrendingArticles` starts from: `ft.search` of `*`
(all indexed documents), `SORTBY @publishedAt`,
`LIMIT { from: 0, size: 1000 }`. -/
def scanDocs (store : List Article) : List Article :=
  ftSearch store (fun _ => true) 0 1000

/-- The `trendingScores` object built by `updateTrendingArticles`'s
loop: for each scanned article, `timeDecay * engagementScore`, in scan
order. -/
noncomputable def trendingScoresOf (now : ℤ) (st : SysState) :
    List (String × ℝ) :=
  (scanDocs st.store).map
    (fun a => (a.id,
      timeDecay now a.publishedAt
        * (getEngagementScore (alookup st.engagement a.id) : ℝ)))

/-- The individual Redis commands `updateTrendingArticles` issues
against the `trending:articles` sorted set: one `DEL`, then one `ZADD`
per computed score. -/
inductive ZOp
  | del
  | zadd (id : String) (score : ℝ)

/-- Effect of one sorted-set command on the `trending:articles` key. -/
def applyZOp (s : List (String × ℝ)) : ZOp → List (String × ℝ)
  | .del => []
  | .zadd id score => (s.filter (fun p => p.1 != id)) ++ [(id, score)]

/-- The command sequence of one trending rebuild: clear the key, then
insert every `(articleId, score)` pair in `Object.entries` order. -/
def rebuildOps (scores : List (String × ℝ)) : List ZOp :=
  .del :: scores.map (fun p => .zadd p.1 p.2)

/-- Every state of the `trending:articles` key a concurrent reader can
observe while a command sequence runs: the state before any command and
after each command. -/
def statesDuring (init : List (String × ℝ)) (ops : List ZOp) :
    List (List (String × ℝ)) :=
  ops.scanl applyZOp init

/-- `updateTrendingArticles`' overall effect once all its commands have
run: the scores are recomputed from a fresh scan and the sorted set is
cleared and repopulated. -/
noncomputable def updateTrendingArticlesState (now : ℤ) (st : SysState) :
    SysState :=
  { st with trending :=
      (rebuildOps (trendingScoresOf now st)).foldl applyZOp st.trending }

/-- `zrevrange(key, 0, limit-1, WITHSCORES)`: the `limit` highest-score
members, scores descending. -/
noncomputable def zrevrangeWithScores (s : List (String × ℝ)) (limit : ℕ) :
    List (String × ℝ) :=
  (List.insertionSort (fun p q => q.2 ≤ p.2) s).take limit

/-- `getTrendingArticles(limit)`: read the top of the sorted set, then
`json.get` each article document, skipping ids whose document is gone,
and attach the `trendingScore`. -/
noncomputable def getTrendingArticles (st : SysState) (limit : ℕ) :
    List (Article × ℝ) :=
  (zrevrangeWithScores st.trending limit).filterMap
    (fun p => (st.store.find? (fun a => a.id == p.1)).map (fun a => (a, p.2)))

/-- The two result shapes `getPersonalizedNews` can return: the
trending articles (with their `trendingScore` field) when no
preferences exist, or the preference-filtered search results. -/
inductive FeedResult
  | trendingFallback : List (Article × ℝ) → FeedResult
  | personalized : List Article → FeedResult

/-- The article ids of a feed result, in order. -/
def FeedResult.ids : FeedResult → List String
  | .trendingFallback l => l.map (fun p => p.1.id)
  | .personalized l => l.map (fun a => a.id)

/-- `getPersonalizedNews(userId, limit)`: when `getUserPreferences`
returns `null` the call returns `getTrendingArticles(limit)`; otherwise
it runs one `ft.search` with the preference filters,
`SORTBY @publishedAt`, `LIMIT { from: 0, size: limit }`. The user's
viewed set is not consulted anywhere on this path. -/
noncomputable def getPersonalizedNews (st : SysState) (userId : String)
    (limit : ℕ) : FeedResult :=
  match getUserPreferences st userId with
  | none => .trendingFallback (getTrendingArticles st limit)
  | some p => .personalized (ftSearch st.store (prefsMatch p) 0 limit)

/-- A JSON payload as cached by `setCacheWithTTL` (the `data` field of
the stored document). The constructors cover JavaScript's primitive
values plus objects; `obj` carries its field list. -/
inductive JsVal
  | null
  | bool (b : Bool)
  | num (q : ℚ)
  | str (s : String)
  | obj (fields : List String)
  deriving Repr, DecidableEq

/-- JavaScript truthiness, as tested by `getCache`'s
`if (cached && cached.data)` guard. -/
def JsVal.truthy : JsVal → Bool
  | .null => false
  | .bool b => b
  | .num q => q != 0
  | .str s => s != ""
  | .obj _ => true

/-- One `cache:results:*` entry: the stored `{data, timestamp, ttl}`
document plus the key's Redis expiry deadline (set by `EXPIRE`,
milliseconds). -/
structure CacheEntry where
  data : JsVal
  timestamp : ℤ
  ttl : ℤ
  expireAt : ℤ
  deriving Repr, DecidableEq

/-- `setCacheWithTTL(key, data, ttl)` at wall-clock time `now` (ms):
`json.set` of `{data, timestamp: Date.now(), ttl}` followed by
`EXPIRE(key, ttl)` — the key dies `ttl` seconds after the write. -/
def setCacheWithTTL (now : ℤ) (cache : List (String × CacheEntry))
    (key : String) (data : JsVal) (ttl : ℤ) : List (String × CacheEntry) :=
  aset cache key ⟨data, now, ttl, now + ttl * 1000⟩

/-- `getCache(key)` at wall-clock time `now`: `json.get` (which yields
`null` for an absent or expired key), then the `cached && cached.data`
truthiness check; `null` (here `none`) signals a miss. -/
def getCache (now : ℤ) (cache : List (String × CacheEntry))
    (key : String) : Option JsVal :=
  match alookup cache key with
  | none => none
  | some e =>
    if now < e.expireAt then
      if e.data.truthy then some e.data else none
    else none

/-- `toggleTopic` from the frontend `PreferenceSetup` component:
lowercases the topic, removes it when already selected, refuses to add
an 11th topic, otherwise appends it. -/
def toggleTopic (prev : List String) (topic : String) : List String :=
  let t := topic.toLower
  if prev.contains t then prev.filter (fun x => x != t)
  else if 10 ≤ prev.length then prev
  else prev ++ [t]

/-- Dot product of two embedding vectors (trailing coordinates of the
longer vector are ignored; indexed vectors share the fixed dimension). -/
def dotProd : List ℚ → List ℚ → ℚ
  | a :: as, b :: bs => a * b + dotProd as bs
  | _, _ => 0

/-- Squared Euclidean norm of an embedding vector. -/
def sumSq (v : List ℚ) : ℚ := dotProd v v

/-- A strictly monotone rational encoding of the cosine similarity
`dot(q,v) / ‖v‖` used to order KNN results (the common positive factor
`1 / ‖q‖` is dropped): for `‖v‖ > 0`,
`simKey q v = sgn(dot q v) · (dot q v)² / ‖v‖²`, which compares exactly
as `dot(q,v)/‖v‖` does, while staying inside `ℚ`. Cosine distance is
`1 - similarity`, so larger key = smaller distance = nearer. -/
def simKey (q v : List ℚ) : ℚ :=
  let x := dotProd q v
  let A := sumSq v
  if A ≤ 0 then 0 else if 0 ≤ x then x ^ 2 / A else -(x ^ 2 / A)

/-- The documents visible to `news:vector_index`: those having an
embedding field, subject to the index's `@publishedAt:[0 +inf]`
filter. -/
def vectorDocs (store : List Article) : List Article :=
  store.filter (fun a => a.embedding.isSome && decide (0 ≤ a.publishedAt))

/-- "`a` is at least as similar to the query as `b`": the order the KNN
search returns results in (nearest by cosine distance first). -/
def knnRel (q : List ℚ) (a b : Article) : Prop :=
  simKey q (b.embedding.getD []) ≤ simKey q (a.embedding.getD [])

instance knnRelDecidable (q : List ℚ) : DecidableRel (knnRel q) :=
  fun a b => inferInstanceAs
    (Decidable (simKey q (b.embedding.getD []) ≤ simKey q (a.embedding.getD [])))

/-- The `*=>[KNN $k @embedding $embedding AS score]` query with
`SORTBY score`: every indexed document ranked by ascending cosine
distance to the query vector, truncated to the `k` nearest. The query
article's own document is part of the index and is not excluded. -/
def knn (store : List Article) (q : List ℚ) (k : ℕ) : List Article :=
  (List.insertionSort (knnRel q) (vectorDocs store)).take k

/-- `findSimilarArticles(articleId, limit)`: `json.get` the article,
throw when it is absent or lacks an embedding, otherwise run the KNN
query with `k = limit`. -/
def findSimilarArticles (store : List Article) (articleId : String)
    (limit : ℕ) : Except String (List Article) :=
  match store.find? (fun a => a.id == articleId) with
  | none => .error "Article or embedding not found"
  | some a =>
    match a.embedding with
    | none => .error "Article or embedding not found"
    | some e => .ok (knn store e limit)

/-- A raw article as handed to the ingestion pipeline, before AI
enrichment. -/
structure RawArticle where
  id : String
  title : String
  content : String
  topic : String
  source : String
  publishedAt : ℤ
  deriving Repr, DecidableEq

/-- The result of the Gemini `analyzeContent` call. -/
structure Analysis where
  summary : String
  sentiment : String
  keywords : List String
  topics : List String
  deriving Repr, DecidableEq

/-- The `processedArticle` object built by `processNewsArticle`: the
raw article enriched with the AI analysis fields and the embedding. -/
def procArticle (raw : RawArticle) (an : Analysis) (e : List ℚ) : Article :=
  { id := raw.id, title := raw.title, content := raw.content,
    summary := an.summary, sentiment := an.sentiment,
    topic := raw.topic, source := raw.source,
    publishedAt := raw.publishedAt, embedding := some e }

/-- `processNewsArticle(article)`: AI analysis, then embedding
generation (either failing fails this article), then `storeArticle`,
then `updateTrendingArticles` (the `createSearchIndex` refresh touches
no modelled data). The external calls are passed in as functions
returning `none` on provider failure. -/
noncomputable def processNewsArticle (analyze : String → Option Analysis)
    (embedOf : String → Option (List ℚ)) (now : ℤ) (raw : RawArticle)
    (st : SysState) : Except String (Article × SysState) :=
  match analyze raw.content with
  | none => .error "EnrichmentUnavailable"
  | some an =>
    match embedOf raw.content with
    | none => .error "EmbeddingUnavailable"
    | some e =>
      let st1 := { st with store := storeArticle (procArticle raw an e) st.store }
      .ok (procArticle raw an e, updateTrendingArticlesState now st1)

/-- The `{total, successful, failed}` report of `processBatch`. -/
structure BatchResult where
  total : ℕ
  successful : ℕ
  failed : ℕ
  deriving Repr, DecidableEq

/-- One article's contribution to the batch fold: a fulfilled promise
bumps the success count and keeps the new state, a rejected one bumps
the failure count and leaves the state as it was. -/
noncomputable def batchStep (analyze : String → Option Analysis)
    (embedOf : String → Option (List ℚ)) (now : ℤ)
    (acc : (ℕ × ℕ) × SysState) (raw : RawArticle) : (ℕ × ℕ) × SysState :=
  match processNewsArticle analyze embedOf now raw acc.2 with
  | .ok (_, st') => ((acc.1.1 + 1, acc.1.2), st')
  | .error _ => ((acc.1.1, acc.1.2 + 1), acc.2)

/-- `processBatch(articles)`: runs `processNewsArticle` on every
article, `Promise.allSettled` style (no article's failure aborts the
rest), and reports `{total, successful, failed}` from the counts of
fulfilled and rejected outcomes. -/
noncomputable def processBatch (analyze : String → Option Analysis)
    (embedOf : String → Option (List ℚ)) (now : ℤ)
    (articles : List RawArticle) (st : SysState) : BatchResult × SysState :=
  let r := articles.foldl (batchStep analyze embedOf now) ((0, 0), st)
  ({ total := articles.length, successful := r.1.1, failed := r.1.2 }, r.2)

theorem recordOfEvents_total (events : List EngAction) :
    (recordOfEvents events).view + (recordOfEvents events).like
      + (recordOfEvents events).share = events.length := by
  suffices h : ∀ (r : EngRecord),
      (events.foldl (fun r a => bumpEngRecord (some r) a) r).view
        + (events.foldl (fun r a => bumpEngRecord (some r) a) r).like
        + (events.foldl (fun r a => bumpEngRecord (some r) a) r).share
        = r.view + r.like + r.share + events.length by
    simpa [recordOfEvents] using h ⟨0, 0, 0⟩
  induction events with
  | nil => intro r; simp
  | cons a tl ih =>
    intro r
    cases a <;> simp only [List.foldl_cons] <;> rw [ih] <;>
      simp [bumpEngRecord] <;> omega

theorem alookup_aset_self {β : Type} (l : List (String × β)) (k : String)
    (v : β) : alookup (aset l k v) k = some v := by
  induction l with
  | nil => simp [aset, alookup, List.find?]
  | cons p tl ih =>
    by_cases h : p.1 = k
    · simp [aset, alookup, List.find?, h]
    · simp only [aset, alookup, List.find?] at ih ⊢
      rw [if_neg (by simpa using h)]
      simpa [List.find?, show (p.1 == k) = false by simpa using h] using ih

/-- Claim C5 of CLAIMS.json. For every article, `getEngagementScore`
equals `viewCount + 2*likeCount + 3*shareCount` on the article's
engagement record (any record produced by at least one `trackEngagement`
event, which is the only way the hash is created), equals `1.0` when no
record exists, and yields `12` for `viewCount = 5`, `likeCount = 2`,
`shareCount = 1`. -/
theorem C5_engagement_score :
    (∀ events : List EngAction, events ≠ [] →
      getEngagementScore (some (recordOfEvents events)) =
        ((recordOfEvents events).view : ℚ)
          + ((recordOfEvents events).like : ℚ) * 2
          + ((recordOfEvents events).share : ℚ) * 3) ∧
    getEngagementScore none = 1 ∧
    getEngagementScore (some ⟨5, 2, 1⟩) = 12 := by
  refine ⟨?_, rfl, by norm_num [getEngagementScore]⟩
  intro events hne
  have htot := recordOfEvents_total events
  have hlen : 1 ≤ events.length := by
    cases events with
    | nil => exact absurd rfl hne
    | cons a l => simp
  have h1 : (1 : ℚ) ≤ ((recordOfEvents events).view : ℚ)
      + ((recordOfEvents events).like : ℚ) * 2
      + ((recordOfEvents events).share : ℚ) * 3 := by
    have hn : 1 ≤ (recordOfEvents events).view
        + (recordOfEvents events).like * 2
        + (recordOfEvents events).share * 3 := by omega
    exact_mod_cast hn
  simp [getEngagementScore, max_eq_left h1]

/-- Witness for C5: five views, two likes and one share score
`5 + 2*2 + 3*1 = 12`. -/
theorem C5_engagement_score_witness :
    getEngagementScore (some (recordOfEvents
      [.view, .view, .view, .view, .view, .like, .like, .share])) = 12 := by
  have h := C5_engagement_score.1
    [.view, .view, .view, .view, .view, .like, .like, .share] (by decide)
  have hr : recordOfEvents
      [.view, .view, .view, .view, .view, .like, .like, .share]
      = ⟨5, 2, 1⟩ := rfl
  rw [h, hr]; norm_num

/-- Counterexample to claim C7 of CLAIMS.json as stated: the claim
quantifies over every value `v`, but `getCache` reports a miss for any
stored value that is JavaScript-falsy (its guard is
`if (cached && cached.data)`). Storing `false` with a 3600-second TTL
and reading it back 5 seconds later — well within the TTL — yields a
miss instead of the stored value. -/
theorem C7_cache_roundtrip_counterexample :
    getCache 5000 (setCacheWithTTL 0 [] "k" (JsVal.bool false) 3600) "k"
        = none
      ∧ (5000 : ℤ) < 0 + 3600 * 1000
      ∧ JsVal.bool false ≠ JsVal.null := by decide

/-- Claim C7, amended: the round-trip holds for every *truthy* stored
value. Within the TTL the stored value is returned; once
`ttl` seconds have elapsed the key has expired and every read misses,
so an entry older than its TTL is never returned as a hit. -/
theorem C7_cache_roundtrip_amended (cache : List (String × CacheEntry))
    (key : String) (v : JsVal) (ttl t0 t1 : ℤ) (hv : v.truthy = true) :
    (t1 < t0 + ttl * 1000 →
      getCache t1 (setCacheWithTTL t0 cache key v ttl) key = some v) ∧
    (t0 + ttl * 1000 ≤ t1 →
      getCache t1 (setCacheWithTTL t0 cache key v ttl) key = none) := by
  constructor
  · intro h
    simp [getCache, setCacheWithTTL, alookup_aset_self, h, hv]
  · intro h
    simp only [getCache, setCacheWithTTL, alookup_aset_self]
    rw [if_neg (by omega)]

/-- Witness for the amended C7 at a concrete instance: a truthy payload
set at time 0 with a 3600-second TTL is a hit at 1 second and a miss at
3600 seconds. -/
theorem C7_cache_roundtrip_amended_witness :
    getCache 1000 (setCacheWithTTL 0 [] "k" (JsVal.str "payload") 3600) "k"
        = some (JsVal.str "payload") ∧
    getCache 3600000 (setCacheWithTTL 0 [] "k" (JsVal.str "payload") 3600) "k"
        = none :=
  ⟨(C7_cache_roundtrip_amended [] "k" (JsVal.str "payload") 3600 0 1000
      (by decide)).1 (by decide),
   (C7_cache_roundtrip_amended [] "k" (JsVal.str "payload") 3600 0 3600000
      (by decide)).2 (by decide)⟩

/-- A system state with every Redis key absent, used as the starting
point of the concrete scenarios below. -/
def emptyState : SysState :=
  { store := [], prefsMap := [], viewed := [], personalizedSet := [],
    engagement := [], trending := [] }

/-- Eleven distinct topics, one more than the frontend's selection
maximum. -/
def elevenTopics : List String :=
  ["t01", "t02", "t03", "t04", "t05", "t06", "t07", "t08", "t09", "t10",
   "t11"]

/-- Counterexample to claim C9 of CLAIMS.json as stated:
`storeUserPreferences` performs no validation whatsoever, so a
submission of 11 topics is not rejected with a `ValidationError` — it
returns `true` and the stored preference record holds all 11 topics,
violating the claimed bound on stored records. -/
theorem C9_preference_bounds_counterexample :
    (storeUserPreferences emptyState "u" ⟨elevenTopics, [], none, none⟩).1
        = true ∧
    getUserPreferences
        (storeUserPreferences emptyState "u"
          ⟨elevenTopics, [], none, none⟩).2 "u"
      = some ⟨elevenTopics, [], none, none⟩ ∧
    elevenTopics.length = 11 := by decide

/-- Claim C9, amended: the 10-topic bound is enforced only client-side.
The frontend's `toggleTopic` never grows a selection that is within the
bound past 10 topics (an 11th selection is refused), while the backend
`storeUserPreferences` accepts and stores any submitted topic list —
including one of exactly 10 topics — unvalidated, reporting success. -/
theorem C9_preference_bounds_amended (prev : List String) (topic : String)
    (st : SysState) (userId : String) (p : Prefs)
    (hprev : prev.length ≤ 10) :
    (toggleTopic prev topic).length ≤ 10 ∧
    (storeUserPreferences st userId p).1 = true ∧
    getUserPreferences (storeUserPreferences st userId p).2 userId
      = some p := by
  refine ⟨?_, rfl, alookup_aset_self _ _ _⟩
  simp only [toggleTopic]
  split
  · exact le_trans (List.length_filter_le _ _) hprev
  · split
    · exact hprev
    · next h2 =>
      simp only [List.length_append, List.length_cons, List.length_nil]
      omega

/-- Witness for the amended C9: a full selection of 10 topics cannot be
grown by selecting an 11th, and a 10-topic submission is stored
successfully. -/
theorem C9_preference_bounds_amended_witness :
    (toggleTopic (elevenTopics.take 10) "t11").length ≤ 10 ∧
    (storeUserPreferences emptyState "u"
        ⟨elevenTopics.take 10, [], none, none⟩).1 = true ∧
    getUserPreferences
        (storeUserPreferences emptyState "u"
          ⟨elevenTopics.take 10, [], none, none⟩).2 "u"
      = some ⟨elevenTopics.take 10, [], none, none⟩ :=
  C9_preference_bounds_amended (elevenTopics.take 10) "t11" emptyState "u"
    ⟨elevenTopics.take 10, [], none, none⟩ (by decide)

/-- Claim C10 of CLAIMS.json. The store query behind `searchArticles`
always uses the window `LIMIT { from: 0, size: 50 }` — its result is
the first 50 of the sorted matches, no page number is passed through —
and the query behind `getPersonalizedNews` likewise always uses
`LIMIT { from: 0, size: limit }`; since neither function takes a page
argument, any two calls differing only in the caller's requested page
hit the same result window. -/
theorem C10_fixed_window (store : List Article) (q : String)
    (f : SearchFilters) (st : SysState) (userId : String) (limit : ℕ)
    (p : Prefs) (hp : getUserPreferences st userId = some p) :
    searchArticles store q f
      = ((((sortByPublishedAt (indexedDocs store)).filter
            (fun a => textMatch q a && filterMatch f a)).drop 0).take 50) ∧
    (searchArticles store q f).length ≤ 50 ∧
    getPersonalizedNews st userId limit
      = .personalized ((((sortByPublishedAt (indexedDocs st.store)).filter
            (prefsMatch p)).drop 0).take limit) ∧
    (FeedResult.ids (getPersonalizedNews st userId limit)).length ≤ limit := by
  have hfeed : getPersonalizedNews st userId limit
      = .personalized ((((sortByPublishedAt (indexedDocs st.store)).filter
            (prefsMatch p)).drop 0).take limit) := by
    unfold getPersonalizedNews
    rw [hp]
    rfl
  refine ⟨rfl, List.length_take_le _ _, hfeed, ?_⟩
  rw [hfeed]
  simp only [FeedResult.ids, List.length_map]
  exact List.length_take_le _ _

/-- Witness for C10 at a concrete state: one stored article, a user
whose preferences match it, a search and a feed call. -/
theorem C10_fixed_window_witness :
    searchArticles [] "q" ⟨none, none, none, none⟩
      = ((((sortByPublishedAt (indexedDocs [])).filter
            (fun a => textMatch "q" a
              && filterMatch ⟨none, none, none, none⟩ a)).drop 0).take 50) ∧
    (searchArticles [] "q" ⟨none, none, none, none⟩).length ≤ 50 ∧
    getPersonalizedNews
        { emptyState with
            prefsMap := [("u", ⟨["tech"], [], none, none⟩)] } "u" 20
      = .personalized ((((sortByPublishedAt (indexedDocs
            ({ emptyState with
                prefsMap := [("u", ⟨["tech"], [], none, none⟩)] }
              : SysState).store)).filter
            (prefsMatch ⟨["tech"], [], none, none⟩)).drop 0).take 20) ∧
    (FeedResult.ids (getPersonalizedNews
        { emptyState with
            prefsMap := [("u", ⟨["tech"], [], none, none⟩)] } "u" 20)).length
      ≤ 20 :=
  C10_fixed_window [] "q" ⟨none, none, none, none⟩
    { emptyState with prefsMap := [("u", ⟨["tech"], [], none, none⟩)] }
    "u" 20 ⟨["tech"], [], none, none⟩ (by decide)

/-- The id list of a similar-articles result (`[]` for a thrown
error). -/
def similarIds (r : Except String (List Article)) : List String :=
  match r with
  | .ok l => l.map (fun a => a.id)
  | .error _ => []

/-- An article with an embedding, used as the stored corpus of the
similarity scenarios. -/
def embeddedArticle : Article :=
  { id := "a1", title := "Tech news", content := "body", summary := "sum",
    sentiment := "positive", topic := "tech", source := "src",
    publishedAt := 0, embedding := some [1, 0] }

/-- Counterexample to claim C2 of CLAIMS.json as stated: the KNN query
`*=>[KNN $k @embedding $embedding AS score]` runs over the whole vector
index, which contains the query article's own document, and
`findSimilarArticles` never filters the query article out. With a
corpus holding the single embedded article `a1`,
`findSimilarArticles("a1", 10)` returns a list containing `a1`
itself. -/
theorem C2_similar_counterexample :
    similarIds (findSimilarArticles [embeddedArticle] "a1" 10) = ["a1"] := by
  decide

/-- Claim C2, amended: `findSimilarArticles(A.id, k)` (for a stored
article with an embedding) returns at most `k` results ordered by
non-increasing similarity (nearest first by cosine distance), but it
does not exclude `A.id` — the query article itself can appear among the
results. -/
theorem C2_similar_amended (store : List Article) (articleId : String)
    (k : ℕ) (a : Article) (e : List ℚ)
    (hfind : store.find? (fun b => b.id == articleId) = some a)
    (hemb : a.embedding = some e) :
    findSimilarArticles store articleId k = .ok (knn store e k) ∧
    (knn store e k).length ≤ k ∧
    List.Sorted (knnRel e) (knn store e k) := by
  refine ⟨?_, List.length_take_le _ _, ?_⟩
  · simp [findSimilarArticles, hfind, hemb]
  · haveI htot : IsTotal Article (knnRel e) := ⟨fun x y => le_total _ _⟩
    haveI htr : IsTrans Article (knnRel e) :=
      ⟨fun x y z h1 h2 => le_trans h2 h1⟩
    exact List.Pairwise.sublist (List.take_sublist _ _)
      (List.sorted_insertionSort (knnRel e) (vectorDocs store))

/-- Witness for the amended C2: a two-article corpus, querying from
`a1`. -/
theorem C2_similar_amended_witness :
    findSimilarArticles [embeddedArticle] "a1" 10
      = .ok (knn [embeddedArticle] [1, 0] 10) ∧
    (knn [embeddedArticle] [1, 0] 10).length ≤ 10 ∧
    List.Sorted (knnRel [1, 0]) (knn [embeddedArticle] [1, 0] 10) :=
  C2_similar_amended [embeddedArticle] "a1" 10 embeddedArticle [1, 0]
    (by decide) rfl

theorem saddAt_mem (m : List (String × List String)) (k v : String) :
    v ∈ (alookup (saddAt m k v) k).getD [] := by
  unfold saddAt
  rw [alookup_aset_self]
  by_cases h : ((alookup m k).getD []).contains v
  · rw [if_pos h]
    exact List.mem_of_elem_eq_true h
  · rw [if_neg h]
    exact List.mem_append_right _ (List.mem_singleton.mpr rfl)

theorem sremAt_not_mem (m : List (String × List String)) (k v : String) :
    v ∉ (alookup (sremAt m k v) k).getD [] := by
  unfold sremAt
  rw [alookup_aset_self]
  intro hmem
  have := List.of_mem_filter hmem
  simp at this

/-- The state used in the personalization scenarios: one stored
article `a1` on topic `tech`, and a user `u` whose preferences select
topic `tech`. -/
def c1State : SysState :=
  { store := [embeddedArticle],
    prefsMap := [("u", ⟨["tech"], [], none, none⟩)],
    viewed := [], personalizedSet := [], engagement := [], trending := [] }

/-- Counterexample to claim C1 of CLAIMS.json as stated:
`trackArticleView` adds the article to `user:viewed:<userId>` and
removes it from `user:personalized:<userId>`, but `getPersonalizedNews`
never reads either set — it only runs the preference-filtered search.
So after user `u` (whose preferences match article `a1`) views `a1`,
the very next personalized feed still returns `a1`. -/
theorem C1_viewed_exclusion_counterexample :
    FeedResult.ids
        (getPersonalizedNews (trackArticleView c1State "u" "a1") "u" 20)
      = ["a1"] := by decide

/-- Claim C1, amended: `recordView` does update the per-user state — the
article lands in the ViewedSet and leaves the `user:personalized` set —
but the personalized feed of a user in the Personalized state is
computed solely from the preference filters and the article corpus, so
it is entirely unchanged by the view event and the viewed article may
keep appearing in it. -/
theorem C1_viewed_exclusion_amended (st : SysState) (u x : String)
    (p : Prefs) (limit : ℕ) (hp : getUserPreferences st u = some p) :
    x ∈ (alookup (trackArticleView st u x).viewed u).getD [] ∧
    x ∉ (alookup (trackArticleView st u x).personalizedSet u).getD [] ∧
    getPersonalizedNews (trackArticleView st u x) u limit
      = getPersonalizedNews st u limit := by
  refine ⟨saddAt_mem _ _ _, ?_, ?_⟩
  · exact sremAt_not_mem _ _ _
  · have hp' : getUserPreferences (trackArticleView st u x) u = some p := hp
    unfold getPersonalizedNews
    rw [hp, hp']
    rfl

/-- Witness for the amended C1 at the concrete scenario state. -/
theorem C1_viewed_exclusion_amended_witness :
    "a1" ∈ (alookup (trackArticleView c1State "u" "a1").viewed "u").getD [] ∧
    "a1" ∉ (alookup (trackArticleView c1State "u" "a1").personalizedSet
        "u").getD [] ∧
    getPersonalizedNews (trackArticleView c1State "u" "a1") "u" 20
      = getPersonalizedNews c1State "u" 20 :=
  C1_viewed_exclusion_amended c1State "u" "a1" ⟨["tech"], [], none, none⟩
    20 (by decide)

/-- A state whose user has no stored preferences and whose
`trending:articles` sorted set ranks the one stored article. -/
def c3State : SysState :=
  { store := [embeddedArticle], prefsMap := [], viewed := [],
    personalizedSet := [], engagement := [], trending := [("a1", 1)] }

/-- Counterexample to claim C3 of CLAIMS.json as stated: when
`getUserPreferences` returns `null` (the user is not in the
Personalized state), `getPersonalizedNews` does not fail with
`PreferencesRequired` — it falls back to `getTrendingArticles` and
returns articles: here the trending article `a1`. -/
theorem C3_preferences_required_counterexample :
    getPersonalizedNews c3State "u" 10
      = .trendingFallback [(embeddedArticle, 1)] := by
  have h1 : getUserPreferences c3State "u" = none := by decide
  unfold getPersonalizedNews
  rw [h1]
  simp [getTrendingArticles, zrevrangeWithScores, c3State,
    List.insertionSort, List.orderedInsert, embeddedArticle]

/-- Claim C3, amended: for a user with no valid preferences,
`feed(userId, page, pageSize)` does not fail with
`PreferencesRequired`; it returns the trending-articles ranking
(`getTrendingArticles(limit)`) as the feed instead. -/
theorem C3_preferences_required_amended (st : SysState) (u : String)
    (limit : ℕ) (h : getUserPreferences st u = none) :
    getPersonalizedNews st u limit
      = .trendingFallback (getTrendingArticles st limit) := by
  unfold getPersonalizedNews
  rw [h]

/-- Witness for the amended C3 at the concrete scenario state. -/
theorem C3_preferences_required_amended_witness :
    getUserPreferences c3State "u" = none ∧
    getPersonalizedNews c3State "u" 10
      = .trendingFallback (getTrendingArticles c3State 10) :=
  ⟨by decide, C3_preferences_required_amended c3State "u" 10 (by decide)⟩

theorem zaddStates_subset (S : List (String × ℝ)) :
    ∀ (l : List (String × ℝ)) (s0 : List (String × ℝ)),
      (∀ e ∈ s0, e ∈ S) → (∀ p ∈ l, p ∈ S) →
      ∀ s ∈ List.scanl applyZOp s0 (l.map (fun p => ZOp.zadd p.1 p.2)),
        ∀ e ∈ s, e ∈ S := by
  intro l
  induction l with
  | nil =>
    intro s0 h0 _ s hs
    simp only [List.map_nil, List.scanl, List.mem_singleton] at hs
    subst hs
    exact h0
  | cons p tl ih =>
    intro s0 h0 hl s hs
    simp only [List.map_cons, List.scanl, List.mem_cons] at hs
    rcases hs with rfl | hs
    · exact h0
    · refine ih (applyZOp s0 (.zadd p.1 p.2)) ?_ ?_ s hs
      · intro e he
        rcases List.mem_append.mp he with h | h
        · exact h0 e (List.mem_of_mem_filter h)
        · rw [List.mem_singleton.mp h]
          exact hl p (List.mem_cons_self _ _)
      · intro q hq
        exact hl q (List.mem_cons_of_mem _ hq)

/-- The old ranking and the new cycle's scores used in the concrete
rebuild-interleaving scenario. -/
def oldRanking : List (String × ℝ) := [("old", 5)]

/-- The scores the concrete rebuild inserts. -/
def newScores : List (String × ℝ) := [("a", 1), ("b", 2)]

/-- Counterexample to claim C4 of CLAIMS.json as stated: the rebuild is
`DEL` followed by one `ZADD` per entry, so a reader between the two
`ZADD`s observes the ranking `[("a", 1)]` — neither the complete old
ranking `[("old", 5)]` nor the complete new ranking
`[("a", 1), ("b", 2)]`. -/
theorem C4_atomic_rebuild_counterexample :
    [("a", (1 : ℝ))] ∈ statesDuring oldRanking (rebuildOps newScores) ∧
    [("a", (1 : ℝ))].map Prod.fst ≠ oldRanking.map Prod.fst ∧
    [("a", (1 : ℝ))].map Prod.fst
      ≠ ((rebuildOps newScores).foldl applyZOp oldRanking).map Prod.fst := by
  refine ⟨?_, by decide, ?_⟩
  · simp [statesDuring, rebuildOps, newScores, oldRanking, List.scanl,
      applyZOp]
  · have hfin : ((rebuildOps newScores).foldl applyZOp oldRanking).map
        Prod.fst = ["a", "b"] := by
      simp [rebuildOps, newScores, oldRanking, applyZOp]
    rw [hfin]
    decide

/-- Claim C4, amended: the rebuild is not atomic — a concurrent reader
can observe an empty or partially repopulated ranking — but because the
`DEL` precedes every `ZADD`, each observable state is either exactly
the old ranking or consists solely of entries of the new cycle: no
state ever mixes entries of two refresh cycles. -/
theorem C4_atomic_rebuild_amended (init scores : List (String × ℝ))
    (s : List (String × ℝ))
    (hs : s ∈ statesDuring init (rebuildOps scores)) :
    s = init ∨ ∀ e ∈ s, e ∈ scores := by
  simp only [statesDuring, rebuildOps, List.scanl, List.mem_cons] at hs
  rcases hs with rfl | hs
  · exact Or.inl rfl
  · refine Or.inr ?_
    have h0 : ∀ e ∈ applyZOp init ZOp.del, e ∈ scores := by
      intro e he
      simp [applyZOp] at he
    exact zaddStates_subset scores scores (applyZOp init .del) h0
      (fun p hp => hp) s hs

/-- Witness for the amended C4: the intermediate state `[("a", 1)]` of
the concrete rebuild consists solely of new-cycle entries. -/
theorem C4_atomic_rebuild_amended_witness :
    [("a", (1 : ℝ))] = oldRanking
      ∨ ∀ e ∈ [("a", (1 : ℝ))], e ∈ newScores :=
  C4_atomic_rebuild_amended oldRanking newScores [("a", (1 : ℝ))]
    (by simp [statesDuring, rebuildOps, newScores, oldRanking, List.scanl,
      applyZOp])

/-- The state of the end-to-end trending scenario: one freshly ingested
article, no engagement yet, a stale entry in the trending set. -/
def c6State : SysState :=
  { store := [embeddedArticle], prefsMap := [], viewed := [],
    personalizedSet := [], engagement := [], trending := [("z", 3)] }

/-- Claim C6 of CLAIMS.json. Every trending refresh assigns each
scanned article the score
`exp(-(now - publishedAt) / (24*60*60*1000)) * engagementScore`
(half-life window 24 h in milliseconds), recomputed from a fresh scan;
and an article ingested with `publishedAt = now` and no engagement
record (cold-start score `1.0`) comes out of a rebuild at the top of
`top(1)` with trending score `exp(0) * 1.0 = 1.0`. -/
theorem C6_trending_decay_score (now : ℤ) :
    (∀ (st : SysState) (a : Article), a ∈ scanDocs st.store →
      (a.id, Real.exp (-((now : ℝ) - (a.publishedAt : ℝ))
            / (24 * 60 * 60 * 1000))
          * (getEngagementScore (alookup st.engagement a.id) : ℝ))
        ∈ trendingScoresOf now st) ∧
    (∀ (st : SysState) (b : Article), st.store = [b] →
      st.engagement = [] → b.publishedAt = now → 0 ≤ now →
      getTrendingArticles (updateTrendingArticlesState now st) 1
        = [(b, 1)]) := by
  constructor
  · intro st a ha
    exact List.mem_map_of_mem (fun a : Article => (a.id,
      timeDecay now a.publishedAt
        * (getEngagementScore (alookup st.engagement a.id) : ℝ))) ha
  · intro st b hstore heng hpub hnn
    subst hpub
    have hscan : scanDocs st.store = [b] := by
      simp [scanDocs, ftSearch, indexedDocs, sortByPublishedAt, hstore,
        List.insertionSort, List.orderedInsert, hnn]
    have hscores : trendingScoresOf b.publishedAt st = [(b.id, 1)] := by
      simp [trendingScoresOf, hscan, heng, timeDecay, alookup,
        getEngagementScore]
    have hupd : updateTrendingArticlesState b.publishedAt st
        = { st with trending := [(b.id, 1)] } := by
      unfold updateTrendingArticlesState
      rw [hscores]
      simp [rebuildOps, applyZOp]
    rw [hupd]
    simp [getTrendingArticles, zrevrangeWithScores, List.insertionSort,
      List.orderedInsert, hstore, List.find?]

/-- Witness for C6: in the concrete end-to-end scenario (one article
published at `now = 0`, no engagement), the refresh assigns the decayed
score and `top(1)` returns the article with score 1. -/
theorem C6_trending_decay_score_witness :
    (embeddedArticle.id,
        Real.exp (-(((0 : ℤ) : ℝ) - (embeddedArticle.publishedAt : ℝ))
            / (24 * 60 * 60 * 1000))
          * (getEngagementScore
              (alookup c6State.engagement embeddedArticle.id) : ℝ))
      ∈ trendingScoresOf 0 c6State ∧
    getTrendingArticles (updateTrendingArticlesState 0 c6State) 1
      = [(embeddedArticle, 1)] :=
  ⟨(C6_trending_decay_score 0).1 c6State embeddedArticle (by decide),
   (C6_trending_decay_score 0).2 c6State embeddedArticle rfl rfl rfl
     (by decide)⟩

theorem storeArticle_preserves_find (a : Article) (store : List Article)
    (c : String) (h : (store.find? (fun b => b.id == c)).isSome) :
    ((storeArticle a store).find? (fun b => b.id == c)).isSome := by
  rw [List.find?_isSome] at h ⊢
  obtain ⟨x, hx, hpx⟩ := h
  unfold storeArticle
  split
  · by_cases hxa : x.id = a.id
    · refine ⟨a, ?_, ?_⟩
      · exact List.mem_map.mpr ⟨x, hx, by simp [hxa]⟩
      · have hc : x.id = c := by simpa using hpx
        simpa using hxa ▸ hc
    · exact ⟨x, List.mem_map.mpr ⟨x, hx, by simp [hxa]⟩, hpx⟩
  · exact ⟨x, List.mem_append_left _ hx, hpx⟩

theorem storeArticle_find_self (a : Article) (store : List Article) :
    ((storeArticle a store).find? (fun b => b.id == a.id)).isSome := by
  rw [List.find?_isSome]
  unfold storeArticle
  split
  · next h =>
    rw [List.find?_isSome] at h
    obtain ⟨x, hx, hpx⟩ := h
    refine ⟨a, ?_, by simp⟩
    have hxa : x.id = a.id := by simpa using hpx
    exact List.mem_map.mpr ⟨x, hx, by simp [hxa]⟩
  · exact ⟨a, List.mem_append_right _ (by simp), by simp⟩

theorem batchFold_spec (analyze : String → Option Analysis)
    (embedOf : String → Option (List ℚ)) (now : ℤ) :
    ∀ (articles : List RawArticle) (st : SysState) (s0 f0 : ℕ),
      (∀ a ∈ articles, (analyze a.content).isSome →
        (embedOf a.content).isSome) →
      ((articles.foldl (batchStep analyze embedOf now) ((s0, f0), st)).1.1
          = s0 + (articles.length
            - (articles.filter
                (fun a => (analyze a.content).isNone)).length)) ∧
      ((articles.foldl (batchStep analyze embedOf now) ((s0, f0), st)).1.2
          = f0 + (articles.filter
              (fun a => (analyze a.content).isNone)).length) ∧
      (∀ c : String, ((st.store.find? (fun b => b.id == c)).isSome) →
        (((articles.foldl (batchStep analyze embedOf now)
            ((s0, f0), st)).2.store.find? (fun b => b.id == c)).isSome)) ∧
      (∀ a ∈ articles, (analyze a.content).isSome →
        (((articles.foldl (batchStep analyze embedOf now)
            ((s0, f0), st)).2.store.find?
              (fun b => b.id == a.id)).isSome)) := by
  intro articles
  induction articles with
  | nil => exact fun st s0 f0 _ => ⟨rfl, rfl, fun c h => h, by simp⟩
  | cons a tl ih =>
    intro st s0 f0 hemb
    have hembtl : ∀ x ∈ tl, (analyze x.content).isSome →
        (embedOf x.content).isSome :=
      fun x hx => hemb x (List.mem_cons_of_mem _ hx)
    have hcount : (tl.filter (fun x => (analyze x.content).isNone)).length
        ≤ tl.length := List.length_filter_le _ _
    cases hna : analyze a.content with
    | none =>
      have hstep : batchStep analyze embedOf now ((s0, f0), st) a
          = ((s0, f0 + 1), st) := by
        simp [batchStep, processNewsArticle, hna]
      obtain ⟨ih1, ih2, ih3, ih4⟩ := ih st s0 (f0 + 1) hembtl
      simp only [List.foldl_cons, hstep]
      refine ⟨?_, ?_, ih3, ?_⟩
      · rw [ih1]
        simp [List.filter_cons, hna]
      · rw [ih2]
        simp only [List.filter_cons, hna, Option.isNone_none]
        simp
        omega
      · intro x hx hsome
        rcases List.mem_cons.mp hx with rfl | hx'
        · rw [hna] at hsome
          simp at hsome
        · exact ih4 x hx' hsome
    | some an =>
      have hes : (embedOf a.content).isSome := by
        refine hemb a (List.mem_cons_self _ _) ?_
        simp [hna]
      obtain ⟨e, he⟩ := Option.isSome_iff_exists.mp hes
      have hstep1 : batchStep analyze embedOf now ((s0, f0), st) a
          = ((s0 + 1, f0), updateTrendingArticlesState now
              { st with store :=
                  (storeArticle (procArticle a an e) st.store) }) := by
        simp [batchStep, processNewsArticle, hna, he]
      have hstep2 : (updateTrendingArticlesState now
          { st with store :=
              (storeArticle (procArticle a an e) st.store) }).store
          = storeArticle (procArticle a an e) st.store := rfl
      obtain ⟨ih1, ih2, ih3, ih4⟩ := ih (updateTrendingArticlesState now
        { st with store :=
            (storeArticle (procArticle a an e) st.store) })
        (s0 + 1) f0 hembtl
      simp only [List.foldl_cons, hstep1]
      refine ⟨?_, ?_, ?_, ?_⟩
      · rw [ih1]
        simp only [List.filter_cons, hna, Option.isNone_some,
          Bool.false_eq_true, if_false, List.length_cons]
        omega
      · rw [ih2]
        simp [List.filter_cons, hna]
      · intro c h
        refine ih3 c ?_
        rw [hstep2]
        exact storeArticle_preserves_find _ _ _ h
      · intro x hx hsome
        rcases List.mem_cons.mp hx with rfl | hx'
        · refine ih3 x.id ?_
          rw [hstep2]
          have hself := storeArticle_find_self (procArticle x an e) st.store
          simpa [procArticle] using hself
        · exact ih4 x hx' hsome

/-- Claim C8 of CLAIMS.json. For a batch of `N` raw articles in which
exactly one article's enrichment call fails (and embedding succeeds for
the rest), `processBatch` does not abort: it reports `total = N`,
`successful = N - 1`, `failed = 1`, and every article whose enrichment
succeeded is present in the document store afterwards. -/
theorem C8_batch_isolation (analyze : String → Option Analysis)
    (embedOf : String → Option (List ℚ)) (now : ℤ)
    (articles : List RawArticle) (st : SysState)
    (hone : (articles.filter
        (fun a => (analyze a.content).isNone)).length = 1)
    (hemb : ∀ a ∈ articles, (analyze a.content).isSome →
      (embedOf a.content).isSome) :
    (processBatch analyze embedOf now articles st).1.total
        = articles.length ∧
    (processBatch analyze embedOf now articles st).1.successful
        = articles.length - 1 ∧
    (processBatch analyze embedOf now articles st).1.failed = 1 ∧
    ∀ a ∈ articles, (analyze a.content).isSome →
      (((processBatch analyze embedOf now articles st).2.store.find?
          (fun b => b.id == a.id)).isSome) := by
  obtain ⟨h1, h2, _, h4⟩ :=
    batchFold_spec analyze embedOf now articles st 0 0 hemb
  refine ⟨rfl, ?_, ?_, ?_⟩
  · show (articles.foldl (batchStep analyze embedOf now)
        ((0, 0), st)).1.1 = articles.length - 1
    rw [h1, hone]
    omega
  · show (articles.foldl (batchStep analyze embedOf now)
        ((0, 0), st)).1.2 = 1
    rw [h2, hone]
  · exact h4

/-- The concrete enrichment provider of the batch scenario: it fails
exactly on the body `"bad"`. -/
def demoAnalyze (s : String) : Option Analysis :=
  if s = "bad" then none else some ⟨"sum", "positive", [], []⟩

/-- The concrete embedding provider of the batch scenario. -/
def demoEmbed (s : String) : Option (List ℚ) :=
  if s = "bad" then none else some [1, 0]

/-- The three raw articles of the batch scenario; `rawB`'s enrichment
fails. -/
def rawA : RawArticle := ⟨"r1", "T1", "good one", "tech", "src", 0⟩

/-- Second raw article: its body makes the enrichment call fail. -/
def rawB : RawArticle := ⟨"r2", "T2", "bad", "tech", "src", 0⟩

/-- Third raw article, enriched successfully. -/
def rawC : RawArticle := ⟨"r3", "T3", "another good", "tech", "src", 0⟩

/-- Witness for C8: a batch of 3 where exactly the middle article's
enrichment fails reports `{total 3, successful 2, failed 1}` and both
other articles are in the store. -/
theorem C8_batch_isolation_witness :
    (processBatch demoAnalyze demoEmbed 0 [rawA, rawB, rawC]
        emptyState).1.total = 3 ∧
    (processBatch demoAnalyze demoEmbed 0 [rawA, rawB, rawC]
        emptyState).1.successful = 2 ∧
    (processBatch demoAnalyze demoEmbed 0 [rawA, rawB, rawC]
        emptyState).1.failed = 1 ∧
    (((processBatch demoAnalyze demoEmbed 0 [rawA, rawB, rawC]
        emptyState).2.store.find? (fun b => b.id == rawA.id)).isSome) ∧
    (((processBatch demoAnalyze demoEmbed 0 [rawA, rawB, rawC]
        emptyState).2.store.find? (fun b => b.id == rawC.id)).isSome) := by
  have h := C8_batch_isolation demoAnalyze demoEmbed 0 [rawA, rawB, rawC]
    emptyState (by decide) (by decide)
  exact ⟨h.1, h.2.1, h.2.2.1,
    h.2.2.2 rawA (by decide) (by decide),
    h.2.2.2 rawC (by decide) (by decide)⟩
